import Mathlib

/-!
Verification of the registration/login front-end (hzqula/frontend-latest).

The TypeScript sources are shallowly embedded as pure Lean functions:
  * string predicates model `String.prototype.includes` / `endsWith`,
  * each React event handler becomes a state-transition function on an
    explicit record of the component's `useState` fields,
  * network outcomes are passed in as `Except String String` parameters,
  * the zod schemas become executable boolean checks plus error messages.
Library-provided checks that are not part of this repository (zod's
`z.string().email()` format test, which lives in the zod package) are taken
as a parameter `emailOk : String → Bool` so every theorem holds for an
arbitrary implementation of that format test.
-/

namespace Frontend

/-- `user.role` values used by the registration page (`Register.tsx`,
`useState<"LECTURER" | "STUDENT" | null>`). -/
inductive Role where
  | STUDENT
  | LECTURER
deriving DecidableEq, Repr

/-- `pat == l.take pat.length`: does the character list `l` start with `pat`?
(JavaScript `String.prototype.startsWith` on the underlying characters.) -/
def startsWithL (l pat : List Char) : Bool :=
  pat == l.take pat.length

/-- Does the character list `l` contain `pat` as a contiguous run?
(JavaScript `String.prototype.includes` on the underlying characters.) -/
def containsL : List Char → List Char → Bool
  | [], pat => startsWithL [] pat
  | c :: t, pat => startsWithL (c :: t) pat || containsL t pat

/-- Does the character list `l` end with `pat`?
(JavaScript `String.prototype.endsWith` on the underlying characters.) -/
def endsWithL : List Char → List Char → Bool
  | [], pat => pat == ([] : List Char)
  | c :: t, pat => pat == (c :: t) || endsWithL t pat

/-- JavaScript `s.includes(pat)` for strings. -/
def sIncludes (s pat : String) : Bool :=
  containsL s.data pat.data

/-- JavaScript `s.endsWith(pat)` for strings. -/
def sEndsWith (s pat : String) : Bool :=
  endsWithL s.data pat.data

/-- Lecturer campus-domain suffix used by `Register.tsx`. -/
def lecturerDomain : String := "@lecturer.unri.ac.id"

/-- Student campus-domain suffix used by `Register.tsx`. -/
def studentDomain : String := "@student.unri.ac.id"

/-- The role computation performed inside `handleEmailChange`
(`Register.tsx` lines 152-158): `value.includes("@lecturer.unri.ac.id")`
first, then `value.includes("@student.unri.ac.id")`, else `null`. -/
def inferRole (v : String) : Option Role :=
  if sIncludes v lecturerDomain then some Role.LECTURER
  else if sIncludes v studentDomain then some Role.STUDENT
  else none

/-- A selected file, as relevant to `handleProfilePictureChange`:
its declared byte `size`, its declared MIME `type`, and its `content`
(through which the `FileReader` preview is modelled). -/
structure FileData where
  size : Nat
  type : String
  content : String
deriving DecidableEq, Repr

/-- The `FileReader.readAsDataURL` result for a file, modelled as a function
of the file's content. -/
def dataUrl (f : FileData) : String := f.content

/-- The `FormErrors` record of `Register.tsx` (per-field error messages,
`none` = no error, mirroring `undefined`). -/
structure FormErrors where
  email : Option String
  otp : Option String
  name : Option String
  nim : Option String
  nip : Option String
  phoneNumber : Option String
  password : Option String
  confirmPassword : Option String
  profilePicture : Option String
deriving DecidableEq, Repr

/-- The error record with every field absent (`{}` in the component). -/
def noErrors : FormErrors :=
  { email := none, otp := none, name := none, nim := none, nip := none
  , phoneNumber := none, password := none, confirmPassword := none
  , profilePicture := none }

/-- `RegisterUserRequest` from `types/auth.ts`: `nim` and `nip` are optional
(`string | undefined`), the rest are plain strings. -/
structure RegisterUserRequest where
  email : String
  name : String
  nim : Option String
  nip : Option String
  phoneNumber : String
  password : String
  confirmPassword : String
deriving DecidableEq, Repr

/-- Messages displayed through the `toaster` notification sink. -/
inductive Toast where
  | success (msg : String)
  | error (msg : String)
deriving DecidableEq, Repr

/-- The `useState` fields of the `Register` component that the embedded
handlers read or write. -/
structure RegState where
  currentStep : Nat
  formErrors : FormErrors
  isLoadingEmail : Bool
  isLoadingOtp : Bool
  isLoadingDetails : Bool
  resendDisabled : Bool
  countdown : Nat
  formData : RegisterUserRequest
  otp : String
  profilePicture : Option FileData
  profilePicturePreview : Option String
  role : Option Role
deriving DecidableEq, Repr

/-- The initial `formData` literal of `Register.tsx` (every field the empty
string; in particular `nim` and `nip` are present with value `""`). -/
def initFormData : RegisterUserRequest :=
  { email := "", name := "", nim := some "", nip := some ""
  , phoneNumber := "", password := "", confirmPassword := "" }

/-- The state of `Register` right after mount. -/
def initRegState : RegState :=
  { currentStep := 1, formErrors := noErrors
  , isLoadingEmail := false, isLoadingOtp := false, isLoadingDetails := false
  , resendDisabled := false, countdown := 0
  , formData := initFormData, otp := ""
  , profilePicture := none, profilePicturePreview := none, role := none }

/-- `handleEmailChange` (`Register.tsx` lines 149-162): store the new email,
recompute the role from substring tests, and clear a pending email error. -/
def handleEmailChange (s : RegState) (v : String) : RegState :=
  let base : RegState :=
    { s with formData := { s.formData with email := v }, role := inferRole v }
  if s.formErrors.email.isSome then
    { base with formErrors := { base.formErrors with email := none } }
  else base

/-- Error message for an oversized file selection. -/
def sizeLimitMsg : String := "Ukuran file maksimum adalah 2MB"

/-- Error message for a file selection with a disallowed MIME type. -/
def typeLimitMsg : String :=
  "Hanya file gambar (JPEG, JPG, PNG) yang diperbolehkan"

/-- `allowedTypes` from `handleProfilePictureChange`. -/
def allowedTypes : List String := ["image/jpeg", "image/jpg", "image/png"]

/-- `handleProfilePictureChange` (`Register.tsx` lines 164-195): no file
selected does nothing; a file over `2 * 1024 * 1024` bytes or outside
`allowedTypes` only records an error; otherwise the file becomes the active
picture, its preview is installed and the error is cleared. -/
def handleProfilePictureChange (s : RegState) (file : Option FileData) :
    RegState :=
  match file with
  | none => s
  | some f =>
    if 2 * 1024 * 1024 < f.size then
      { s with formErrors :=
          { s.formErrors with profilePicture := some sizeLimitMsg } }
    else if !(allowedTypes.contains f.type) then
      { s with formErrors :=
          { s.formErrors with profilePicture := some typeLimitMsg } }
    else
      { s with profilePicture := some f
             , profilePicturePreview := some (dataUrl f)
             , formErrors := { s.formErrors with profilePicture := none } }

/-- `emailSchema` of `Register.tsx`: zod's `email()` format test (library
code, passed in as `emailOk`), then the campus-suffix refinement; the first
failing check's message is reported. `none` means the schema passed. -/
def emailSchemaError (emailOk : String → Bool) (e : String) : Option String :=
  if !emailOk e then some "Email tidak valid"
  else if !(sEndsWith e studentDomain || sEndsWith e lecturerDomain) then
    some "Gunakan email kampus UR (@student.unri.ac.id atau @lecturer.unri.ac.id)"
  else none

/-- `otpSchema` of `Register.tsx`: `min(6)`, `max(6)`, then the all-digits
regular-expression check `^\d+$`. `none` means the schema passed. -/
def otpSchemaError (o : String) : Option String :=
  if decide (o.length < 6) then some "OTP harus 6 digit"
  else if decide (6 < o.length) then some "OTP harus 6 digit"
  else if !(!o.data.isEmpty && o.data.all Char.isDigit) then
    some "OTP hanya boleh berisi angka"
  else none

/-- JavaScript truthiness of a `string | undefined` value: truthy exactly
when it is a defined, non-empty string. -/
def truthy : Option String → Bool
  | none => false
  | some s => !(s == "")

/-- The `^\d{8,}$` test shared by the `nim` and `nip` refinements. -/
def digits8 (s : String) : Bool :=
  decide (8 ≤ s.length) && s.data.all Char.isDigit

/-- Field-level refinement for `nim` and for `nip`:
`(x) => !x || /^\d{8,}$/.test(x)`. -/
def idFieldOk : Option String → Bool
  | none => true
  | some s => (s == "") || digits8 s

/-- The `^08\d+$` test of the `phoneNumber` field. -/
def phoneDigits (p : String) : Bool :=
  match p.data with
  | '0' :: '8' :: rest => !rest.isEmpty && rest.all Char.isDigit
  | _ => false

/-- The `phoneNumber` field checks: `min(10)`, `max(13)`, regex `^08\d+$`. -/
def phoneOk (p : String) : Bool :=
  decide (10 ≤ p.length) && decide (p.length ≤ 13) && phoneDigits p

/-- The object-level refinement
`(data.nim && !data.nip) || (!data.nim && data.nip)` of `userDataSchema`:
exactly one of `nim`/`nip` is truthy. -/
def exclusiveOk (d : RegisterUserRequest) : Bool :=
  (truthy d.nim && !truthy d.nip) || (!truthy d.nim && truthy d.nip)

/-- The `nim`/`nip` portion of `userDataSchema`: both per-field refinements
plus the exclusivity refinement. -/
def nimNipConstraint (d : RegisterUserRequest) : Bool :=
  idFieldOk d.nim && idFieldOk d.nip && exclusiveOk d

/-- `userDataSchema.safeParse(data).success`: every field check and both
object-level refinements pass.  zod's `z.string().email()` format test is
the parameter `emailOk`. -/
def userDataCheck (emailOk : String → Bool) (d : RegisterUserRequest) :
    Bool :=
  emailOk d.email && decide (1 ≤ d.name.length)
  && idFieldOk d.nim && idFieldOk d.nip
  && phoneOk d.phoneNumber
  && decide (8 ≤ d.password.length) && decide (8 ≤ d.confirmPassword.length)
  && (d.password == d.confirmPassword)
  && exclusiveOk d

/-- First reported message for the `phoneNumber` field
(`min`/`max` share one message, the regex has its own). -/
def phoneError (p : String) : Option String :=
  if decide (p.length < 10) then some "Nomor telepon tidak valid"
  else if decide (13 < p.length) then some "Nomor telepon tidak valid"
  else if !phoneDigits p then some "Nomor telepon harus diawali dengan 08"
  else none

/-- The per-field error messages written by `handleDetailsSubmit` when
`userDataSchema.safeParse` fails (`setFormErrors` with exactly the seven
schema fields, so `otp` and `profilePicture` become absent; the exclusivity
refinement carries path `["nim", "nip"]`, whose flattened first element is
`nim`). -/
def detailsFieldErrors (emailOk : String → Bool) (d : RegisterUserRequest) :
    FormErrors :=
  { email := if !emailOk d.email then some "Email tidak valid" else none
  , otp := none
  , name := if decide (d.name.length < 1) then some "Nama wajib diisi" else none
  , nim :=
      if !idFieldOk d.nim then
        some "NIM harus berupa angka dan minimal 8 digit"
      else if !exclusiveOk d then
        some "Hanya salah satu dari NIM atau NIP yang boleh diisi"
      else none
  , nip :=
      if !idFieldOk d.nip then
        some "NIP harus berupa angka dan minimal 8 digit"
      else none
  , phoneNumber := phoneError d.phoneNumber
  , password :=
      if decide (d.password.length < 8) then
        some "Kata sandi minimal 8 karakter"
      else none
  , confirmPassword :=
      if decide (d.confirmPassword.length < 8) then
        some "Konfirmasi kata sandi minimal 8 karakter"
      else if !(d.password == d.confirmPassword) then
        some "Kata sandi dan konfirmasi kata sandi tidak cocok"
      else none
  , profilePicture := none }

/-- `handleEmailSubmit` (`Register.tsx` lines 238-255) together with the
`emailMutation` callbacks (lines 198-209).  The network outcome of
`registerEmail` is the `server` parameter.  On schema failure the whole
error record is replaced by one carrying only the email message; on server
success the wizard advances to step 2 and the 60-second resend cooldown
starts; on server failure only a toast is emitted. -/
def handleEmailSubmit (emailOk : String → Bool) (s : RegState)
    (server : Except String String) : RegState × List Toast :=
  if s.isLoadingEmail then (s, [])
  else
    match emailSchemaError emailOk s.formData.email with
    | some msg => ({ s with formErrors := { noErrors with email := some msg } }, [])
    | none =>
      match server with
      | Except.ok m =>
        ({ s with currentStep := 2, resendDisabled := true, countdown := 60 },
         [Toast.success m])
      | Except.error m => (s, [Toast.error m])

/-- `handleOtpSubmit` (`Register.tsx` lines 257-288) together with the
`otpMutation` callbacks (lines 211-221).  On schema failure the error record
is replaced by one carrying only the otp message; on server failure
`onError` toasts the message and regresses the wizard to step 1, and the
rethrown rejection skips `setCurrentStep(3)`; on server success `onSuccess`
toasts and, after the minimum-loading wait, the wizard advances to
step 3. -/
def handleOtpSubmit (s : RegState) (server : Except String String) :
    RegState × List Toast :=
  if s.isLoadingOtp then (s, [])
  else
    match otpSchemaError s.otp with
    | some msg => ({ s with formErrors := { noErrors with otp := some msg } }, [])
    | none =>
      match server with
      | Except.error m => ({ s with currentStep := 1 }, [Toast.error m])
      | Except.ok m => ({ s with currentStep := 3 }, [Toast.success m])

/-- The wall-clock time, measured from the moment the verification call was
issued, at which `setCurrentStep(3)` runs in `handleOtpSubmit`
(lines 270-284): the response time `elapsed` plus the
`minLoadingTime - elapsedTime` wait taken when `elapsed < 2000`. -/
def otpAdvanceDelay (elapsed : Nat) : Nat :=
  elapsed + (if elapsed < 2000 then 2000 - elapsed else 0)

/-- `handleDetailsSubmit` (`Register.tsx` lines 290-315) together with the
`userMutation` callbacks (lines 223-235).  On schema failure the error
record is replaced with the seven schema-field messages; on success the
request is issued (its payload is modelled by `registerUser` below) and only
toasts and navigation happen, leaving the wizard state unchanged. -/
def handleDetailsSubmit (emailOk : String → Bool) (s : RegState)
    (server : Except String String) : RegState × List Toast :=
  if s.isLoadingDetails then (s, [])
  else if !userDataCheck emailOk s.formData then
    ({ s with formErrors := detailsFieldErrors emailOk s.formData }, [])
  else
    match server with
    | Except.ok m => (s, [Toast.success m])
    | Except.error m => (s, [Toast.error m])

/-- User-interface or network events that drive the `Register` component.
Network outcomes are carried inside the submit events. -/
inductive REvent where
  | emailInput (v : String)
  | otpInput (v : String)
  | nameInput (v : String)
  | idInput (v : String)
  | phoneInput (v : String)
  | passwordInput (v : String)
  | confirmInput (v : String)
  | fileSelect (f : Option FileData)
  | emailSubmit (server : Except String String)
  | otpSubmit (server : Except String String)
  | detailsSubmit (server : Except String String)
  | backTo1
  | backTo2
  | tick

/-- One step of the `Register` component: the effect of each event handler
of `Register.tsx` on the component's state.  `idInput` is the shared
NIM/NIP input, which writes `nip` when the inferred role is LECTURER and
`nim` otherwise (lines 506-516); `tick` is the countdown `useEffect`
(lines 134-141). -/
def stepR (emailOk : String → Bool) (s : RegState) (e : REvent) : RegState :=
  match e with
  | REvent.emailInput v => handleEmailChange s v
  | REvent.otpInput v =>
      { s with otp := v, formErrors := { s.formErrors with otp := none } }
  | REvent.nameInput v =>
      { s with formData := { s.formData with name := v }
             , formErrors := { s.formErrors with name := none } }
  | REvent.idInput v =>
      if s.role == some Role.LECTURER then
        { s with formData := { s.formData with nip := some v }
               , formErrors := { s.formErrors with nim := none, nip := none } }
      else
        { s with formData := { s.formData with nim := some v }
               , formErrors := { s.formErrors with nim := none, nip := none } }
  | REvent.phoneInput v =>
      { s with formData := { s.formData with phoneNumber := v }
             , formErrors := { s.formErrors with phoneNumber := none } }
  | REvent.passwordInput v =>
      { s with formData := { s.formData with password := v }
             , formErrors := { s.formErrors with password := none } }
  | REvent.confirmInput v =>
      { s with formData := { s.formData with confirmPassword := v }
             , formErrors := { s.formErrors with confirmPassword := none } }
  | REvent.fileSelect f => handleProfilePictureChange s f
  | REvent.emailSubmit server => (handleEmailSubmit emailOk s server).1
  | REvent.otpSubmit server => (handleOtpSubmit s server).1
  | REvent.detailsSubmit server => (handleDetailsSubmit emailOk s server).1
  | REvent.backTo1 => { s with currentStep := 1 }
  | REvent.backTo2 => { s with currentStep := 2 }
  | REvent.tick =>
      if 0 < s.countdown then { s with countdown := s.countdown - 1 }
      else if s.resendDisabled then { s with resendDisabled := false }
      else s

/-- States of the `Register` component reachable from the mount state by
any sequence of events. -/
inductive Reachable (emailOk : String → Bool) : RegState → Prop
  | init : Reachable emailOk initRegState
  | next {s : RegState} (e : REvent) :
      Reachable emailOk s → Reachable emailOk (stepR emailOk s e)

/-- The HTTP request assembled by `registerUser` (`services/api/auth.ts`
lines 31-53): the string parts of the `FormData`, the file part, and the
content type header. -/
structure RegisterRequestModel where
  parts : List (String × String)
  fileParts : List (String × FileData)
  contentType : String
deriving DecidableEq, Repr

/-- `Object.entries(data)` filtered by `value !== undefined`, in the
insertion order of `RegisterUserRequest`'s fields: defined values are
appended, including empty strings. -/
def entriesOf (d : RegisterUserRequest) : List (String × String) :=
  [("email", d.email), ("name", d.name)]
  ++ (match d.nim with | some v => [("nim", v)] | none => [])
  ++ (match d.nip with | some v => [("nip", v)] | none => [])
  ++ [("phoneNumber", d.phoneNumber), ("password", d.password)
     , ("confirmPassword", d.confirmPassword)]

/-- `registerUser` (`services/api/auth.ts` lines 31-53): build the
`FormData` from the defined entries, append the file when present, and post
with a `multipart/form-data` content type in every case. -/
def registerUser (d : RegisterUserRequest) (file : Option FileData) :
    RegisterRequestModel :=
  { parts := entriesOf d
  , fileParts :=
      match file with
      | some f => [("profilePicture", f)]
      | none => []
  , contentType := "multipart/form-data" }

/-- Field errors of the login form (`Login.tsx`). -/
structure LoginErrors where
  email : Option String
  password : Option String
deriving DecidableEq, Repr

/-- The `useState` fields of the `Login` component read by
`handleSubmit`. -/
structure LoginState where
  email : String
  password : String
  formErrors : LoginErrors
  isLoading : Bool
  recaptchaToken : Option String
deriving DecidableEq, Repr

/-- The login `signInSchema` email checks: zod's format test (`emailOk`)
then the three-suffix refinement; first failing message reported. -/
def signInEmailError (emailOk : String → Bool) (e : String) : Option String :=
  if !emailOk e then some "Email tidak valid"
  else if !(sEndsWith e studentDomain || sEndsWith e lecturerDomain
            || sEndsWith e "@eng.unri.ac.id") then
    some "Gunakan email kampus Universitas Riau (student.unri.ac.id atau lecturer.unri.ac.id)"
  else none

/-- The login `signInSchema` password check: `min(6)`. -/
def signInPasswordError (p : String) : Option String :=
  if decide (p.length < 6) then some "Password minimal 6 karakter" else none

/-- Outcome of one invocation of the login `handleSubmit`: do nothing
(already loading), stop with field errors and no network request, or issue
the credential-exchange request. -/
inductive LoginOutcome where
  | noop
  | blocked (errs : LoginErrors)
  | request (email password token : String)
deriving DecidableEq, Repr

/-- `handleSubmit` of `Login.tsx` (lines 68-113) up to the point where the
network request is issued: the in-flight guard, then `signInSchema`, then
the reCAPTCHA-token presence check with its fixed password-field message. -/
def handleLoginSubmit (emailOk : String → Bool) (s : LoginState) :
    LoginOutcome :=
  if s.isLoading then LoginOutcome.noop
  else if (signInEmailError emailOk s.email).isSome
          || (signInPasswordError s.password).isSome then
    LoginOutcome.blocked
      { email := signInEmailError emailOk s.email
      , password := signInPasswordError s.password }
  else
    match s.recaptchaToken with
    | none =>
        LoginOutcome.blocked
          { email := none, password := some "Harap selesaikan reCAPTCHA" }
    | some tok => LoginOutcome.request s.email s.password tok

/-- A user record held by the auth session store (`AuthContext.tsx`). -/
structure AuthUser where
  id : Nat
  email : String
  name : String
deriving DecidableEq, Repr

/-- The `AuthState` of `AuthContext.tsx`: in-memory user and token. -/
structure AuthState where
  user : Option AuthUser
  token : Option String
deriving DecidableEq, Repr

/-- The session system: the provider's in-memory `auth` state plus the
durable `localStorage` entry under the `token` key. -/
structure AuthSystem where
  auth : AuthState
  storage : Option String
deriving DecidableEq, Repr

/-- `setAuth` of `AuthContext.tsx` (the `useState` setter exposed through
the context, lines 24-40): it replaces the in-memory session and touches
nothing else. -/
def setAuthOp (sys : AuthSystem) (a : AuthState) : AuthSystem :=
  { sys with auth := a }

/-- `logout` of `AuthContext.tsx` (lines 30-33): clear the in-memory
session and remove the durable token. -/
def logoutOp (_sys : AuthSystem) : AuthSystem :=
  { auth := { user := none, token := none }, storage := none }

/-- The login success path of `Login.tsx` (lines 104-106):
`setAuth({user, token})` followed by `localStorage.setItem("token", token)`. -/
def loginSuccessOp (sys : AuthSystem) (u : AuthUser) (t : String) :
    AuthSystem :=
  { setAuthOp sys { user := some u, token := some t } with storage := some t }

/-- The per-request axios config, reduced to the `_retry` marker used by
the response interceptor. -/
structure ReqConfig where
  retry : Bool
deriving DecidableEq, Repr

/-- Result of running the axios response-error interceptor: the (possibly
marked) request config, the durable token storage afterwards, whether a
redirect to `/login` was forced, and the alerts shown. -/
structure InterceptResult where
  config : ReqConfig
  storage : Option String
  redirect : Bool
  alerts : List String
deriving DecidableEq, Repr

/-- The response-error interceptor of `lib/axios.ts` (lines 19-32): when the
response status is 401 and the triggering request is not yet marked
`_retry`, mark it, remove the stored token, alert, and redirect to
`/login`; otherwise pass the error through untouched. -/
def onResponseError (cfg : ReqConfig) (status : Option Nat)
    (storage : Option String) : InterceptResult :=
  if (status == some 401) && !cfg.retry then
    { config := { retry := true }, storage := none, redirect := true
    , alerts := ["Sesi Anda telah kedaluwarsa. Silakan login ulang."] }
  else
    { config := cfg, storage := storage, redirect := false, alerts := [] }

/-- A concrete registration draft as assembled by the wizard for a student:
`nim` filled in, `nip` left at its initial `""` value. -/
def draft0 : RegisterUserRequest :=
  { email := "budi@student.unri.ac.id", name := "Budi"
  , nim := some "19071122", nip := some ""
  , phoneNumber := "081234567890"
  , password := "password1", confirmPassword := "password1" }

/-- A login-form state with valid credentials but no reCAPTCHA token. -/
def loginNoToken : LoginState :=
  { email := "x@student.unri.ac.id", password := "secret123"
  , formErrors := { email := none, password := none }
  , isLoading := false, recaptchaToken := none }

/-- A session system with empty memory and empty durable storage. -/
def authSys0 : AuthSystem :=
  { auth := { user := none, token := none }, storage := none }

/-- A session carrying a non-null token. -/
def sessWithToken : AuthState :=
  { user := some { id := 1, email := "a@b.c", name := "A" }, token := some "tok" }

/-- A draft with both identifier fields filled in. -/
def draftBothIds : RegisterUserRequest :=
  { email := "x@student.unri.ac.id", name := "X"
  , nim := some "12345678", nip := some "87654321"
  , phoneNumber := "081234567890"
  , password := "password1", confirmPassword := "password1" }

/-- An accepted sample file (1000 bytes, PNG). -/
def smallPng : FileData := { size := 1000, type := "image/png", content := "p" }

/-- An oversized sample file (3 MB, PNG). -/
def bigPng : FileData :=
  { size := 3000000, type := "image/png", content := "b" }

/-- A sample file of a disallowed MIME type. -/
def pdfFile : FileData := { size := 100, type := "application/pdf", content := "d" }

/-! ## Helper lemmas -/

/-- A suffix of a character list is also a contiguous run of it. -/
theorem endsWithL_imp_containsL (l pat : List Char)
    (h : endsWithL l pat = true) : containsL l pat = true := by
  induction l with
  | nil =>
    simp only [endsWithL, beq_iff_eq] at h
    subst h
    simp [containsL, startsWithL]
  | cons c t ih =>
    simp only [endsWithL, Bool.or_eq_true, beq_iff_eq] at h
    rcases h with h | h
    · subst h
      simp [containsL, startsWithL, List.take_length]
    · simp [containsL, ih h]

/-- `sEndsWith` implies `sIncludes`. -/
theorem sEndsWith_imp_sIncludes (s pat : String)
    (h : sEndsWith s pat = true) : sIncludes s pat = true :=
  endsWithL_imp_containsL s.data pat.data h

/-! ## Claim C1 -/

/-- Claim C1 counterexample: the email `"a@lecturer.unri.ac.id.x"` ends
with neither campus suffix, yet `handleEmailChange` infers the LECTURER
role for it, because the handler tests `includes` (substring) rather than
`endsWith`.  This refutes the claim that the inferred role is UNKNOWN for
every email not ending with one of the suffixes. -/
theorem c1_counterexample :
    sEndsWith "a@lecturer.unri.ac.id.x" lecturerDomain = false
    ∧ sEndsWith "a@lecturer.unri.ac.id.x" studentDomain = false
    ∧ inferRole "a@lecturer.unri.ac.id.x" = some Role.LECTURER
    ∧ (handleEmailChange initRegState "a@lecturer.unri.ac.id.x").role
        = some Role.LECTURER := by
  decide

/-- Claim C1 (amended): after `handleEmailChange` the role equals
`inferRole` of the new value; the role is LECTURER exactly when the email
contains `@lecturer.unri.ac.id`, STUDENT exactly when it contains
`@student.unri.ac.id` but not the lecturer suffix, and UNKNOWN (`none`)
exactly when it contains neither.  Because a suffix occurrence is in
particular a substring occurrence, every email ending with
`@lecturer.unri.ac.id` is classified LECTURER, and every email ending with
`@student.unri.ac.id` that does not also contain the lecturer string is
classified STUDENT — but an email that merely contains a suffix in the
middle is classified the same way, contrary to the original claim. -/
theorem c1_role_inference (s : RegState) (v : String) :
    (handleEmailChange s v).role = inferRole v
    ∧ (inferRole v = some Role.LECTURER ↔ sIncludes v lecturerDomain = true)
    ∧ (inferRole v = some Role.STUDENT ↔
        (sIncludes v studentDomain = true ∧ sIncludes v lecturerDomain = false))
    ∧ (inferRole v = none ↔
        (sIncludes v lecturerDomain = false ∧ sIncludes v studentDomain = false))
    ∧ (sEndsWith v lecturerDomain = true → inferRole v = some Role.LECTURER)
    ∧ (sEndsWith v studentDomain = true → sIncludes v lecturerDomain = false →
        inferRole v = some Role.STUDENT) := by
  have hbase : (handleEmailChange s v).role = inferRole v := by
    unfold handleEmailChange
    split <;> rfl
  refine ⟨hbase, ?_⟩
  have hl := sEndsWith_imp_sIncludes v lecturerDomain
  have hs := sEndsWith_imp_sIncludes v studentDomain
  cases h1 : sIncludes v lecturerDomain <;> cases h2 : sIncludes v studentDomain <;>
    simp_all [inferRole]

/-- Claim C1 witness: the amended theorem applied to the mount state and a
well-formed lecturer email. -/
theorem c1_witness :
    (handleEmailChange initRegState "x@lecturer.unri.ac.id").role
      = some Role.LECTURER := by
  have h := c1_role_inference initRegState "x@lecturer.unri.ac.id"
  exact h.1.trans (h.2.2.2.2.1 (by decide))

/-! ## Claim C2 -/

/-- Claim C2 counterexample: `draft0` passes step-3 validation, yet the
payload assembled by `registerUser` contains the empty-string `nip` field
(only `undefined` values are filtered, not empty strings), and the request
carries the multipart content type even though no profile picture is
attached.  Both halves of the claim fail. -/
theorem c2_counterexample :
    userDataCheck (fun _ => true) draft0 = true
    ∧ ("nip", "") ∈ (registerUser draft0 none).parts
    ∧ (registerUser draft0 none).fileParts = []
    ∧ (registerUser draft0 none).contentType = "multipart/form-data" := by
  decide

/-- Claim C2 (amended): the payload assembled by `registerUser` contains
exactly the draft fields whose value is defined (`undefined` fields are
omitted, empty strings are kept), the file part is present exactly when a
profile picture is attached, and the request carries the
`multipart/form-data` content type in every case. -/
theorem c2_payload (d : RegisterUserRequest) (file : Option FileData) :
    (registerUser d file).contentType = "multipart/form-data"
    ∧ (∀ v, ("nim", v) ∈ (registerUser d file).parts ↔ d.nim = some v)
    ∧ (∀ v, ("nip", v) ∈ (registerUser d file).parts ↔ d.nip = some v)
    ∧ ("email", d.email) ∈ (registerUser d file).parts
    ∧ ("name", d.name) ∈ (registerUser d file).parts
    ∧ ("phoneNumber", d.phoneNumber) ∈ (registerUser d file).parts
    ∧ ("password", d.password) ∈ (registerUser d file).parts
    ∧ ("confirmPassword", d.confirmPassword) ∈ (registerUser d file).parts
    ∧ (∀ f, (registerUser d (some f)).fileParts = [("profilePicture", f)])
    ∧ (registerUser d none).fileParts = [] := by
  refine ⟨rfl, ?_, ?_, ?_, ?_, ?_, ?_, ?_, fun f => rfl, rfl⟩ <;>
    cases hm : d.nim <;> cases hp : d.nip <;>
      simp [registerUser, entriesOf, Prod.ext_iff, hm, hp, eq_comm]

/-- Claim C2 witness: the amended theorem applied to `draft0` without a
file, extracting the empty-string `nip` membership and the content type. -/
theorem c2_witness :
    ("nip", "") ∈ (registerUser draft0 none).parts
    ∧ (registerUser draft0 none).contentType = "multipart/form-data" :=
  ⟨((c2_payload draft0 none).2.2.1 "").mpr rfl, (c2_payload draft0 none).1⟩

/-! ## Claim C3 -/

/-- Claim C3: whenever the reCAPTCHA token is absent (and no submission is
already in flight), the login `handleSubmit` stops with a field-level error
— whether or not the email and password pass `signInSchema` — and never
issues the credential-exchange request. -/
theorem c3_recaptcha_gate (emailOk : String → Bool) (s : LoginState)
    (hl : s.isLoading = false) (ht : s.recaptchaToken = none) :
    ∃ errs, handleLoginSubmit emailOk s = LoginOutcome.blocked errs
      ∧ (errs.email.isSome || errs.password.isSome) = true
      ∧ ∀ e p t, handleLoginSubmit emailOk s ≠ LoginOutcome.request e p t := by
  unfold handleLoginSubmit
  rw [hl, ht]
  rw [if_neg (by simp)]
  by_cases h : ((signInEmailError emailOk s.email).isSome
      || (signInPasswordError s.password).isSome) = true
  · rw [if_pos h]
    exact ⟨_, rfl, h, fun e p t hc => LoginOutcome.noConfusion hc⟩
  · rw [if_neg h]
    exact ⟨_, rfl, rfl, fun e p t hc => LoginOutcome.noConfusion hc⟩

/-- Claim C3 witness: the theorem applied to a concrete token-less form
state. -/
theorem c3_witness :
    ∃ errs, handleLoginSubmit (fun _ => true) loginNoToken
        = LoginOutcome.blocked errs
      ∧ (errs.email.isSome || errs.password.isSome) = true
      ∧ ∀ e p t, handleLoginSubmit (fun _ => true) loginNoToken
          ≠ LoginOutcome.request e p t :=
  c3_recaptcha_gate (fun _ => true) loginNoToken rfl rfl

/-! ## Claim C4 -/

/-- Claim C4 counterexample: `setAuth` is the bare React state setter of
`AuthContext.tsx`; applied to a session whose token is `some "tok"` it
replaces the in-memory session but leaves durable storage untouched (still
empty), so `setAuth` alone does not write the token to durable storage. -/
theorem c4_counterexample :
    sessWithToken.token = some "tok"
    ∧ (setAuthOp authSys0 sessWithToken).auth = sessWithToken
    ∧ (setAuthOp authSys0 sessWithToken).storage ≠ some "tok" := by
  decide

/-- Claim C4 (amended): `setAuth` replaces the in-memory session and leaves
durable storage exactly as it was; the durable write is performed by the
caller — the login success path runs `setAuth` and then writes the token,
so after it both the in-memory token and the stored token equal the
received token; `logout` clears the in-memory session (user and token to
`null`) and removes the durable entry. -/
theorem c4_session_store (sys : AuthSystem) (a : AuthState) (u : AuthUser)
    (t : String) :
    ((setAuthOp sys a).auth = a ∧ (setAuthOp sys a).storage = sys.storage)
    ∧ ((loginSuccessOp sys u t).auth
          = { user := some u, token := some t }
        ∧ (loginSuccessOp sys u t).storage = some t)
    ∧ ((logoutOp sys).auth.user = none ∧ (logoutOp sys).auth.token = none
        ∧ (logoutOp sys).storage = none) :=
  ⟨⟨rfl, rfl⟩, ⟨rfl, rfl⟩, rfl, rfl, rfl⟩

/-! ## Claim C5 -/

/-- Claim C5: on a 401 response whose request is not yet marked `_retry`,
the interceptor clears the stored token, forces the redirect to `/login`
and marks the request; on the same (now marked) request instance it does
nothing further — storage and config pass through and no redirect fires;
and a subsequent independent request (fresh config, `_retry` unset)
receiving 401 triggers the recovery again. -/
theorem c5_unauthorized_interceptor (st st2 : Option String) :
    ((onResponseError { retry := false } (some 401) st).storage = none
      ∧ (onResponseError { retry := false } (some 401) st).redirect = true
      ∧ (onResponseError { retry := false } (some 401) st).config.retry = true)
    ∧ ((onResponseError { retry := true } (some 401) st2).redirect = false
      ∧ (onResponseError { retry := true } (some 401) st2).storage = st2
      ∧ (onResponseError { retry := true } (some 401) st2).config
          = { retry := true })
    ∧ (onResponseError
        (onResponseError { retry := false } (some 401) st).config
        (some 401) st2).redirect = false
    ∧ (onResponseError { retry := false } (some 401) st2).redirect = true := by
  refine ⟨⟨?_, ?_, ?_⟩, ⟨?_, ?_, ?_⟩, ?_, ?_⟩ <;> simp [onResponseError]

/-! ## Claim C6 -/

/-- Claim C6: for a successful OTP verification call, the wizard advances
to step 3, and `setCurrentStep(3)` runs only `max 2000 elapsed`
milliseconds after the call was issued: the handler waits
`2000 - elapsed` when the response arrived in under 2000 ms and nothing
otherwise, so the advance never occurs before 2000 ms of wall-clock time
have passed since call start. -/
theorem c6_min_loading (s : RegState) (m : String) (e : Nat)
    (hload : s.isLoadingOtp = false) (hotp : otpSchemaError s.otp = none) :
    (handleOtpSubmit s (Except.ok m)).1.currentStep = 3
    ∧ otpAdvanceDelay e = max 2000 e
    ∧ 2000 ≤ otpAdvanceDelay e := by
  refine ⟨?_, ?_, ?_⟩
  · simp [handleOtpSubmit, hload, hotp]
  · unfold otpAdvanceDelay; split <;> omega
  · unfold otpAdvanceDelay; split <;> omega

/-- Claim C6 witness: the theorem applied at step 2 with a valid six-digit
code and a server that answers in 300 ms: the advance happens and is
scheduled at 2000 ms from call start, not at 300 ms. -/
theorem c6_witness :
    (handleOtpSubmit { initRegState with currentStep := 2, otp := "123456" }
        (Except.ok "ok")).1.currentStep = 3
    ∧ otpAdvanceDelay 300 = max 2000 300
    ∧ 2000 ≤ otpAdvanceDelay 300 :=
  c6_min_loading { initRegState with currentStep := 2, otp := "123456" }
    "ok" 300 rfl (by decide)

/-! ## Claim C7 -/

/-- Claim C7: for an OTP verification call that fails at the server, the
wizard regresses from step 2 to step 1 (so step 3 is not reached on that
attempt) and the failure message is surfaced as an error toast through the
notification sink. -/
theorem c7_otp_failure_regression (s : RegState) (m : String)
    (hload : s.isLoadingOtp = false) (hotp : otpSchemaError s.otp = none)
    (_hstep : s.currentStep = 2) :
    (handleOtpSubmit s (Except.error m)).1.currentStep = 1
    ∧ (handleOtpSubmit s (Except.error m)).1.currentStep ≠ 3
    ∧ (handleOtpSubmit s (Except.error m)).2 = [Toast.error m] := by
  refine ⟨?_, ?_, ?_⟩ <;> simp [handleOtpSubmit, hload, hotp]

/-- Claim C7 witness: the theorem applied at step 2 with a valid code and a
failing server. -/
theorem c7_witness :
    (handleOtpSubmit { initRegState with currentStep := 2, otp := "654321" }
        (Except.error "Kode OTP salah")).1.currentStep = 1
    ∧ (handleOtpSubmit { initRegState with currentStep := 2, otp := "654321" }
        (Except.error "Kode OTP salah")).1.currentStep ≠ 3
    ∧ (handleOtpSubmit { initRegState with currentStep := 2, otp := "654321" }
        (Except.error "Kode OTP salah")).2 = [Toast.error "Kode OTP salah"] :=
  c7_otp_failure_regression
    { initRegState with currentStep := 2, otp := "654321" }
    "Kode OTP salah" rfl (by decide) rfl

/-! ## Claim C8 -/

/-- A string passing `^\d{8,}$` is a non-empty string. -/
theorem digits8_ne_empty (a : String) (h : digits8 a = true) :
    (a == "") = false := by
  unfold digits8 at h
  simp only [Bool.and_eq_true, decide_eq_true_eq] at h
  obtain ⟨h8, -⟩ := h
  cases he : a == ""
  · rfl
  · have : a = "" := by simpa using he
    subst this
    simp [String.length] at h8

/-- Claim C8: step-3 local validation rejects a draft whenever both `nim`
and `nip` are (JavaScript-)truthy, rejects it whenever neither is truthy,
and the `nim`/`nip` part of the schema (both per-field digit checks plus
the exclusivity refinement) is satisfied whenever exactly one of them is a
defined string of at least eight digits; moreover the whole validation
factors as the remaining field checks conjoined with that `nim`/`nip`
constraint, so the constraint is independent of the other field checks. -/
theorem c8_nim_nip_validation (emailOk : String → Bool)
    (d : RegisterUserRequest) :
    (truthy d.nim = true → truthy d.nip = true →
        userDataCheck emailOk d = false)
    ∧ (truthy d.nim = false → truthy d.nip = false →
        userDataCheck emailOk d = false)
    ∧ (∀ a, d.nim = some a → truthy d.nip = false → digits8 a = true →
        nimNipConstraint d = true)
    ∧ (∀ a, d.nip = some a → truthy d.nim = false → digits8 a = true →
        nimNipConstraint d = true)
    ∧ (userDataCheck emailOk d = true ↔
        ((emailOk d.email && decide (1 ≤ d.name.length)
          && phoneOk d.phoneNumber
          && decide (8 ≤ d.password.length)
          && decide (8 ≤ d.confirmPassword.length)
          && (d.password == d.confirmPassword)) = true
         ∧ nimNipConstraint d = true)) := by
  refine ⟨?_, ?_, ?_, ?_, ?_⟩
  · intro hn hp
    simp [userDataCheck, exclusiveOk, hn, hp]
  · intro hn hp
    simp [userDataCheck, exclusiveOk, hn, hp]
  · intro a ha hp hd
    have hne := digits8_ne_empty a hd
    have hnim : truthy d.nim = true := by simp [truthy, ha, hne]
    have hfn : idFieldOk d.nim = true := by simp [idFieldOk, ha, hd]
    have hfp : idFieldOk d.nip = true := by
      cases hq : d.nip with
      | none => simp [idFieldOk]
      | some b =>
        have : (b == "") = true := by
          have := hp
          simp [truthy, hq] at this
          simpa using this
        simp [idFieldOk, this]
    simp [nimNipConstraint, exclusiveOk, hnim, hp, hfn, hfp]
  · intro a ha hn hd
    have hne := digits8_ne_empty a hd
    have hnip : truthy d.nip = true := by simp [truthy, ha, hne]
    have hfp : idFieldOk d.nip = true := by simp [idFieldOk, ha, hd]
    have hfn : idFieldOk d.nim = true := by
      cases hq : d.nim with
      | none => simp [idFieldOk]
      | some b =>
        have : (b == "") = true := by
          have := hn
          simp [truthy, hq] at this
          simpa using this
        simp [idFieldOk, this]
    simp [nimNipConstraint, exclusiveOk, hnip, hn, hfn, hfp]
  · simp only [userDataCheck, nimNipConstraint, Bool.and_eq_true]
    tauto

/-- Claim C8 witness: the theorem applied to a draft with both `nim` and
`nip` non-empty (rejected) and to a student draft whose `nim`/`nip`
constraint holds. -/
theorem c8_witness :
    userDataCheck (fun _ => true) draftBothIds = false
    ∧ nimNipConstraint
        { draftBothIds with nim := some "12345678", nip := some "" } = true :=
  ⟨(c8_nim_nip_validation (fun _ => true) draftBothIds).1 (by decide) (by decide),
   (c8_nim_nip_validation (fun _ => true)
      { draftBothIds with nim := some "12345678", nip := some "" }).2.2.1
      "12345678" rfl (by decide) (by decide)⟩

/-! ## Claim C9 -/

/-- A profile-picture selection either leaves the active picture unchanged
or installs the selected file, and in the latter case the file passed both
the size bound and the MIME allow-list. -/
theorem pictureChange_cases (s : RegState) (fo : Option FileData) :
    (handleProfilePictureChange s fo).profilePicture = s.profilePicture
    ∨ ∃ f, fo = some f ∧ f.size ≤ 2 * 1024 * 1024
        ∧ allowedTypes.contains f.type = true
        ∧ (handleProfilePictureChange s fo).profilePicture = some f := by
  cases fo with
  | none => exact Or.inl rfl
  | some f =>
    simp only [handleProfilePictureChange]
    by_cases h1 : 2 * 1024 * 1024 < f.size
    · left; rw [if_pos h1]
    · rw [if_neg h1]
      cases h2 : allowedTypes.contains f.type
      · left; simp [h2]
      · right; exact ⟨f, rfl, Nat.le_of_not_lt h1, h2, by simp [h2]⟩

/-- `handleEmailChange` never touches the active profile picture. -/
theorem emailChange_pic (s : RegState) (v : String) :
    (handleEmailChange s v).profilePicture = s.profilePicture := by
  unfold handleEmailChange
  split <;> rfl

/-- `handleEmailSubmit` never touches the active profile picture. -/
theorem emailSubmit_pic (emailOk : String → Bool) (s : RegState)
    (server : Except String String) :
    (handleEmailSubmit emailOk s server).1.profilePicture
      = s.profilePicture := by
  unfold handleEmailSubmit
  split
  · rfl
  · split
    · rfl
    · split <;> rfl

/-- `handleOtpSubmit` never touches the active profile picture. -/
theorem otpSubmit_pic (s : RegState) (server : Except String String) :
    (handleOtpSubmit s server).1.profilePicture = s.profilePicture := by
  unfold handleOtpSubmit
  split
  · rfl
  · split
    · rfl
    · split <;> rfl

/-- `handleDetailsSubmit` never touches the active profile picture. -/
theorem detailsSubmit_pic (emailOk : String → Bool) (s : RegState)
    (server : Except String String) :
    (handleDetailsSubmit emailOk s server).1.profilePicture
      = s.profilePicture := by
  unfold handleDetailsSubmit
  split
  · rfl
  · split
    · rfl
    · split <;> rfl

/-- Every event other than a file selection leaves the active profile
picture unchanged. -/
theorem stepR_pic_of_not_fileSelect (emailOk : String → Bool) (s : RegState)
    (e : REvent) (h : ∀ fo, e ≠ REvent.fileSelect fo) :
    (stepR emailOk s e).profilePicture = s.profilePicture := by
  cases e with
  | fileSelect fo => exact absurd rfl (h fo)
  | emailInput v => exact emailChange_pic s v
  | idInput v =>
    simp only [stepR]
    split <;> rfl
  | emailSubmit server => exact emailSubmit_pic emailOk s server
  | otpSubmit server => exact otpSubmit_pic s server
  | detailsSubmit server => exact detailsSubmit_pic emailOk s server
  | tick =>
    simp only [stepR]
    split
    · rfl
    · split <;> rfl
  | _ => rfl

/-- Claim C9: in every reachable state of the registration wizard, the
active `profilePicture`, when present, has byte size at most
`2 * 1024 * 1024` and declared MIME type in the allow-list
`{image/jpeg, image/jpg, image/png}`; and a selection that violates either
bound never replaces the active picture. -/
theorem c9_picture_invariant (emailOk : String → Bool) :
    (∀ s, Reachable emailOk s → ∀ f, s.profilePicture = some f →
        f.size ≤ 2 * 1024 * 1024 ∧ allowedTypes.contains f.type = true)
    ∧ (∀ t f, 2 * 1024 * 1024 < f.size ∨ allowedTypes.contains f.type = false →
        (handleProfilePictureChange t (some f)).profilePicture
          = t.profilePicture) := by
  constructor
  · intro s hs
    induction hs with
    | init =>
      intro f hf
      simp [initRegState] at hf
    | @next t e ht ih =>
      intro f hf
      by_cases hfe : ∀ fo, e ≠ REvent.fileSelect fo
      · rw [stepR_pic_of_not_fileSelect emailOk t e hfe] at hf
        exact ih f hf
      · push_neg at hfe
        obtain ⟨fo, rfl⟩ := hfe
        have hst : (stepR emailOk t (REvent.fileSelect fo)).profilePicture
            = (handleProfilePictureChange t fo).profilePicture := rfl
        rw [hst] at hf
        rcases pictureChange_cases t fo with hp | ⟨g, _, hsz, hty, hp⟩
        · rw [hp] at hf
          exact ih f hf
        · rw [hp] at hf
          injection hf with hg
          subst hg
          exact ⟨hsz, hty⟩
  · intro t f h
    simp only [handleProfilePictureChange]
    by_cases h1 : 2 * 1024 * 1024 < f.size
    · rw [if_pos h1]
    · rw [if_neg h1]
      rcases h with h | h2
      · exact absurd h h1
      · have h2m : f.type ∉ allowedTypes := by simpa using h2
        simp [h2m]

/-- Claim C9 witness: the invariant applied to the reachable state obtained
by selecting `smallPng` at mount, and the rejection clause applied to the
oversized `bigPng`. -/
theorem c9_witness :
    (smallPng.size ≤ 2 * 1024 * 1024
      ∧ allowedTypes.contains smallPng.type = true)
    ∧ (handleProfilePictureChange initRegState (some bigPng)).profilePicture
        = initRegState.profilePicture :=
  ⟨(c9_picture_invariant (fun _ => true)).1
      (stepR (fun _ => true) initRegState (REvent.fileSelect (some smallPng)))
      (Reachable.next (REvent.fileSelect (some smallPng)) Reachable.init)
      smallPng (by decide),
   (c9_picture_invariant (fun _ => true)).2 initRegState bigPng
      (Or.inl (by decide))⟩

/-! ## Claim C10 -/

/-- Claim C10: when a file selection fails validation (size over 2 MiB or
disallowed MIME type), the only change to the wizard state is the
`profilePicture` error message: the active picture and its preview, the
current step, all form data, the OTP input, the inferred role, the loading
and cooldown flags, and every other error entry are unchanged, while the
`profilePicture` error entry is set. -/
theorem c10_rejection_frame (s : RegState) (f : FileData)
    (h : 2 * 1024 * 1024 < f.size ∨ allowedTypes.contains f.type = false) :
    (handleProfilePictureChange s (some f)).profilePicture = s.profilePicture
    ∧ (handleProfilePictureChange s (some f)).profilePicturePreview
        = s.profilePicturePreview
    ∧ (handleProfilePictureChange s (some f)).currentStep = s.currentStep
    ∧ (handleProfilePictureChange s (some f)).formData = s.formData
    ∧ (handleProfilePictureChange s (some f)).otp = s.otp
    ∧ (handleProfilePictureChange s (some f)).role = s.role
    ∧ (handleProfilePictureChange s (some f)).isLoadingEmail = s.isLoadingEmail
    ∧ (handleProfilePictureChange s (some f)).isLoadingOtp = s.isLoadingOtp
    ∧ (handleProfilePictureChange s (some f)).isLoadingDetails
        = s.isLoadingDetails
    ∧ (handleProfilePictureChange s (some f)).resendDisabled = s.resendDisabled
    ∧ (handleProfilePictureChange s (some f)).countdown = s.countdown
    ∧ (handleProfilePictureChange s (some f)).formErrors.email
        = s.formErrors.email
    ∧ (handleProfilePictureChange s (some f)).formErrors.otp = s.formErrors.otp
    ∧ (handleProfilePictureChange s (some f)).formErrors.name
        = s.formErrors.name
    ∧ (handleProfilePictureChange s (some f)).formErrors.nim = s.formErrors.nim
    ∧ (handleProfilePictureChange s (some f)).formErrors.nip = s.formErrors.nip
    ∧ (handleProfilePictureChange s (some f)).formErrors.phoneNumber
        = s.formErrors.phoneNumber
    ∧ (handleProfilePictureChange s (some f)).formErrors.password
        = s.formErrors.password
    ∧ (handleProfilePictureChange s (some f)).formErrors.confirmPassword
        = s.formErrors.confirmPassword
    ∧ (handleProfilePictureChange s (some f)).formErrors.profilePicture.isSome
        = true := by
  by_cases h1 : 2 * 1024 * 1024 < f.size
  · simp [handleProfilePictureChange, h1]
  · rcases h with h | h2
    · exact absurd h h1
    · have h2m : f.type ∉ allowedTypes := by simpa using h2
      simp [handleProfilePictureChange, h1, h2m]

/-- Claim C10 witness: the frame theorem applied to a wizard state that
already holds an accepted picture and to a disallowed selection — the
accepted picture, its preview and the form data survive, and only the
`profilePicture` error message appears. -/
theorem c10_witness :
    (handleProfilePictureChange
        { initRegState with profilePicture := some smallPng
                          , profilePicturePreview := some "p" }
        (some pdfFile)).profilePicture = some smallPng
    ∧ (handleProfilePictureChange
        { initRegState with profilePicture := some smallPng
                          , profilePicturePreview := some "p" }
        (some pdfFile)).profilePicturePreview = some "p"
    ∧ (handleProfilePictureChange
        { initRegState with profilePicture := some smallPng
                          , profilePicturePreview := some "p" }
        (some pdfFile)).formErrors.profilePicture.isSome = true := by
  have h := c10_rejection_frame
    { initRegState with profilePicture := some smallPng
                      , profilePicturePreview := some "p" }
    pdfFile (Or.inr (by decide))
  exact ⟨h.1, h.2.1, h.2.2.2.2.2.2.2.2.2.2.2.2.2.2.2.2.2.2.2⟩

end Frontend
